import Mathlib

/-!
# Vision Guard — verification of the notification dispatcher and UI helpers

Shallow embedding of the repository's notification dispatcher (deduplication
cache, rate limiter, connection pool, retry controller, template renderer,
dispatcher façade) and of the React client helpers (registration validation,
history image-URL resolution, per-item history deletion).

The backend email service itself ships outside the provided sources (only its
summary document `EMAIL_OPTIMIZATION_SUMMARY.md` is present), so the dispatcher
components are modelled from the specification's component design; the React
helpers are translated directly from the JSX sources.
-/

namespace VisionGuard

/-! ## Effects visible on an execution path -/

/-- Modelled from the spec: the operations a dispatcher execution path can
perform. `dedupCheck` and `rateConsume` are the in-memory bookkeeping of
`submit`; `sleep` (backoff, in seconds) and `transportSend` are the blocking
operations of the delivery path. -/
inductive Eff where
  | dedupCheck
  | rateConsume
  | sleep (secs : Nat)
  | transportSend
deriving DecidableEq, Repr

/-- An effect is pure in-memory bookkeeping (dedup or rate-limit accounting),
as opposed to a backoff sleep or a transport send. -/
def inMemoryBookkeeping : Eff → Bool
  | Eff.dedupCheck => true
  | Eff.rateConsume => true
  | Eff.sleep _ => false
  | Eff.transportSend => false

/-! ## Retry Controller (spec-modelled) -/

/-- Modelled from the spec: classification of one transport send attempt
(`email_service.py` is missing from the sources). Success, an
authentication/credential rejection, or any other (retryable) transport
error such as a timeout, reset or temporary SMTP rejection. -/
inductive SendOutcome where
  | success
  | authFailure
  | transientError
deriving DecidableEq, Repr

/-- Modelled from the spec: terminal outcome of a retry cycle. -/
inductive Outcome where
  | Success
  | TerminalFailure
deriving DecidableEq, Repr

/-- Modelled from the spec: the documented retry cap — up to 3 attempts total. -/
def maxRetries : Nat := 3

/-- Modelled from the spec: linear-by-attempt backoff policy, 2s for attempt 1,
4s for attempt 2, 6s for attempt 3 (seconds). -/
def backoffDelay (attempt : Nat) : Nat := 2 * attempt

/-- Modelled from the spec: the observable result of a retry cycle — number of
attempts performed, the backoff sleeps in order (seconds), the connection
releases in order (`true` = released healthy), the terminal outcome, and the
trace of blocking effects on the delivery path. -/
structure RetryResult where
  attempts : Nat
  sleeps : List Nat
  releases : List Bool
  outcome : Outcome
  trace : List Eff
deriving DecidableEq, Repr

/-- Modelled from the spec: the retry loop of `deliver`, `email_service.py`
being absent from the sources. `attempt` is the 1-based number of the current
attempt, `fuel` the number of attempts still allowed (including the current
one). On success the connection is released healthy and the loop stops; on an
authentication failure the connection is released unhealthy and the loop stops
with `TerminalFailure` immediately (no sleep); on a retryable transport error
the connection is released unhealthy, the linear backoff delay for the current
attempt is slept, and the next attempt runs if any attempts remain, matching
the documented schedule of inter-attempt delays 2s, 4s, 6s followed by a
`TerminalFailure` report once the attempt cap is exhausted. -/
def deliverAux (transport : Nat → SendOutcome) : Nat → Nat → RetryResult
  | _, 0 => ⟨0, [], [], Outcome.TerminalFailure, []⟩
  | attempt, fuel + 1 =>
    match transport attempt with
    | SendOutcome.success =>
      ⟨1, [], [true], Outcome.Success, [Eff.transportSend]⟩
    | SendOutcome.authFailure =>
      ⟨1, [], [false], Outcome.TerminalFailure, [Eff.transportSend]⟩
    | SendOutcome.transientError =>
      if fuel = 0 then
        ⟨1, [backoffDelay attempt], [false], Outcome.TerminalFailure,
          [Eff.transportSend, Eff.sleep (backoffDelay attempt)]⟩
      else
        let rest := deliverAux transport (attempt + 1) fuel
        ⟨rest.attempts + 1, backoffDelay attempt :: rest.sleeps,
          false :: rest.releases, rest.outcome,
          Eff.transportSend :: Eff.sleep (backoffDelay attempt) :: rest.trace⟩

/-- Modelled from the spec: `deliver` wraps a single delivery attempt with
bounded retry — up to `maxRetries` attempts starting at attempt number 1.
`transport` gives the outcome of each attempt by its attempt number. -/
def deliver (transport : Nat → SendOutcome) : RetryResult :=
  deliverAux transport 1 maxRetries

/-! ## Deduplication Cache (spec-modelled) -/

/-- Modelled from the spec: the 1-minute deduplication window, in seconds. -/
def dedupWindow : Nat := 60

/-- Modelled from the spec: the deduplication cache state — per event key, the
timestamp the key was last reserved at. -/
abbrev DedupState := List (String × Nat)

/-- Timestamp of the entry for `key`, if any. -/
def findEntry (st : DedupState) (key : String) : Option Nat :=
  (st.find? (fun e => e.1 = key)).map (fun e => e.2)

/-- Modelled from the spec: `checkAndReserve(eventKey, now)` of the
Deduplication Cache, `email_service.py` being absent from the sources. In one
step it checks whether `key` has an unexpired entry: if a live entry exists it
returns `true` ("duplicate") and leaves the state unchanged; otherwise it
inserts an entry stamped `now` (purging any expired entry for the key lazily)
and returns `false` ("not a duplicate"). -/
def checkAndReserve (st : DedupState) (key : String) (now : Nat) : Bool × DedupState :=
  match findEntry st key with
  | some t =>
    if now < t + dedupWindow then (true, st)
    else (false, (key, now) :: st.filter (fun e => ¬ e.1 = key))
  | none => (false, (key, now) :: st)

/-! ## Rate Limiter (spec-modelled) -/

/-- Modelled from the spec: the 5-minute rate-limit window length, in seconds. -/
def rateWindowLen : Nat := 300

/-- Modelled from the spec: the per-window cap of 3 sends. -/
def rateCap : Nat := 3

/-- Modelled from the spec: per-recipient fixed-window rate-limit state. -/
structure RateLimitWindow where
  windowStart : Nat
  sentCount : Nat
deriving DecidableEq, Repr

/-- The fixed window has elapsed at time `now`. -/
def windowElapsed (w : RateLimitWindow) (now : Nat) : Bool :=
  decide (w.windowStart + rateWindowLen ≤ now)

/-- Modelled from the spec: `tryConsume(recipient, now)` of the Rate Limiter
for one recipient's window, `email_service.py` being absent from the sources.
Once the window elapses the counter resets to 0 and the window start to `now`,
and the consume then succeeds (count becomes 1). Within a live window a
consume succeeds and increments while the count is below the cap, and fails
with no state change once the count equals the cap. -/
def tryConsume (w : RateLimitWindow) (now : Nat) : Bool × RateLimitWindow :=
  if windowElapsed w now then (true, ⟨now, 1⟩)
  else if w.sentCount < rateCap then (true, ⟨w.windowStart, w.sentCount + 1⟩)
  else (false, w)

/-- Modelled from the spec: the Rate Limiter's per-recipient table. -/
abbrev RateState := List (String × RateLimitWindow)

/-- The window recorded for `recipient`, or a fresh zero window started `now`
on first use. -/
def rateWindowFor (st : RateState) (recipient : String) (now : Nat) : RateLimitWindow :=
  match (st.find? (fun r => r.1 = recipient)).map (fun r => r.2) with
  | some w => w
  | none => ⟨now, 0⟩

/-- Store `w` as the window of `recipient`. -/
def setRateWindow (st : RateState) (recipient : String) (w : RateLimitWindow) : RateState :=
  (recipient, w) :: st.filter (fun r => ¬ r.1 = recipient)

/-! ## Connection Pool (spec-modelled) -/

/-- Modelled from the spec: the 5-minute idle TTL of a pooled connection, in
seconds. -/
def poolTTL : Nat := 300

/-- Modelled from the spec: a pooled transport connection. -/
structure PooledConnection where
  handle : Nat
  createdAt : Nat
  lastUsedAt : Nat
  healthy : Bool
deriving DecidableEq, Repr

/-- A pooled connection may be handed out at time `now`: it is marked healthy
and is younger than the idle TTL. -/
def usable (c : PooledConnection) (now : Nat) : Bool :=
  c.healthy && decide (now < c.lastUsedAt + poolTTL)

/-- A fresh connection opened at time `now`. -/
def freshConnection (handle now : Nat) : PooledConnection :=
  ⟨handle, now, now, true⟩

/-- Result of `acquire`: the connection handed out, the idle connections left
in the pool, the connections closed by the lazy TTL/health sweep, and whether
a fresh connection was opened. -/
structure AcquireResult where
  conn : PooledConnection
  idle : List PooledConnection
  closed : List PooledConnection
  openedFresh : Bool
deriving DecidableEq, Repr

/-- Modelled from the spec: `acquire()` of the Connection Pool,
`email_service.py` being absent from the sources. Stale (idle past the TTL) or
unhealthy connections are evicted and closed by the lazy check; an existing
usable idle connection is handed out if one exists, otherwise a fresh
connection is opened at `now`. -/
def acquire (pool : List PooledConnection) (newHandle now : Nat) : AcquireResult :=
  let live := pool.filter (fun c => usable c now)
  let dead := pool.filter (fun c => !(usable c now))
  match live with
  | c :: rest => ⟨c, rest, dead, false⟩
  | [] => ⟨freshConnection newHandle now, [], dead, true⟩

/-- Modelled from the spec: `release(conn, healthy)` of the Connection Pool.
A healthy release returns the connection to the idle set stamped with its new
last-use time; an unhealthy release closes it. Returns the new idle set and
the connections closed. -/
def release (pool : List PooledConnection) (c : PooledConnection) (healthy : Bool)
    (now : Nat) : List PooledConnection × List PooledConnection :=
  if healthy then (⟨c.handle, c.createdAt, now, true⟩ :: pool, [])
  else (pool, [c])

/-! ## Template Renderer (spec-modelled) -/

/-- Modelled from the spec: one piece of a plain-substitution template —
either literal text or a named placeholder. -/
inductive TemplateItem where
  | lit (s : String)
  | param (key : String)
deriving DecidableEq, Repr

/-- Modelled from the spec: a registered template, a subject and a body built
from literal text and placeholders. -/
structure EmailTemplate where
  subject : List TemplateItem
  body : List TemplateItem
deriving DecidableEq, Repr

/-- Modelled from the spec: the static registry of named templates documented
in `EMAIL_OPTIMIZATION_SUMMARY.md` — `no_objects_detected` and
`detection_summary`, each substituting the caller-supplied parameters. -/
def templateRegistry : List (String × EmailTemplate) :=
  [("no_objects_detected",
    ⟨[TemplateItem.lit "Vision Guard Alert: No Objects Detected"],
     [TemplateItem.lit "No objects were detected in your ",
      TemplateItem.param "detection_type",
      TemplateItem.lit " detection."]⟩),
   ("detection_summary",
    ⟨[TemplateItem.lit "Vision Guard: Detection Summary"],
     [TemplateItem.lit "Your ",
      TemplateItem.param "detection_type",
      TemplateItem.lit " detection found ",
      TemplateItem.param "num_objects",
      TemplateItem.lit " objects."]⟩)]

/-- Modelled from the spec: the renderer's error taxonomy. -/
inductive TemplateError where
  | UnknownTemplate (name : String)
  | MissingParameter (key : String)
deriving DecidableEq, Repr

/-- Template parameters as ordered key→value pairs. -/
abbrev Params := List (String × String)

/-- The value bound to key `k` in `ps`, if any. -/
def lookupParam (ps : Params) (k : String) : Option String :=
  (ps.find? (fun p => p.1 = k)).map (fun p => p.2)

/-- Modelled from the spec: substitute the parameters into a list of template
items, failing with `MissingParameter` on the first placeholder that has no
entry in `ps`. -/
def renderItems (items : List TemplateItem) (ps : Params) : Except TemplateError String :=
  match items with
  | [] => Except.ok ""
  | TemplateItem.lit s :: rest =>
    (renderItems rest ps).map (fun r => s ++ r)
  | TemplateItem.param k :: rest =>
    match lookupParam ps k with
    | none => Except.error (TemplateError.MissingParameter k)
    | some v => (renderItems rest ps).map (fun r => v ++ r)

/-- Modelled from the spec: `render(templateName, params) → (subject, body)`,
`email_service.py` being absent from the sources. Fails with
`UnknownTemplate` when the name is not registered, and with
`MissingParameter` when a placeholder has no entry in `params`. -/
def render (name : String) (ps : Params) : Except TemplateError (String × String) :=
  match (templateRegistry.find? (fun t => t.1 = name)).map (fun t => t.2) with
  | none => Except.error (TemplateError.UnknownTemplate name)
  | some tpl =>
    match renderItems tpl.subject ps, renderItems tpl.body ps with
    | Except.error e, _ => Except.error e
    | Except.ok _, Except.error e => Except.error e
    | Except.ok s, Except.ok b => Except.ok (s, b)

/-- The placeholder keys occurring in a list of template items, in order. -/
def itemKeys (items : List TemplateItem) : List String :=
  items.filterMap
    (fun i => match i with
      | TemplateItem.param k => some k
      | TemplateItem.lit _ => none)

/-- The placeholder keys of a template, subject first, in order. -/
def placeholdersOf (tpl : EmailTemplate) : List String :=
  itemKeys (tpl.subject ++ tpl.body)

/-! ## Dispatcher façade (spec-modelled) -/

/-- Modelled from the spec: the policy-drop reasons. -/
inductive DropReason where
  | Deduplicated
  | RateLimited
deriving DecidableEq, Repr

/-- Modelled from the spec: a delivery task handed to the background worker —
the rendered message and its recipient. -/
structure DeliveryTask where
  recipient : String
  subject : String
  body : String
deriving DecidableEq, Repr

/-- Modelled from the spec: what `submit` reports synchronously. -/
inductive SubmitOutcome where
  | templateErr (e : TemplateError)
  | dropped (r : DropReason)
  | enqueued
deriving DecidableEq, Repr

/-- Modelled from the spec: the dispatcher's shared mutable state — the
deduplication cache and the rate limiter table. -/
structure DispatchState where
  dedup : DedupState
  rate : RateState
deriving DecidableEq, Repr

/-- Result of `submit`: the synchronous outcome, the updated shared state,
the effects performed on the caller's path, and the background delivery task
scheduled (if any). -/
structure SubmitResult where
  outcome : SubmitOutcome
  state : DispatchState
  callerSteps : List Eff
  task : Option DeliveryTask
deriving DecidableEq, Repr

/-- Modelled from the spec: the dedup key derived from recipient and event
kind. -/
def eventKeyOf (recipient eventKind : String) : String :=
  recipient ++ ":" ++ eventKind

/-- Modelled from the spec: `submit(recipient, templateName, params,
eventKind)` of the Dispatcher façade, `email_service.py` being absent from the
sources. Template errors are surfaced synchronously, before any bookkeeping or
async work (fail fast). Otherwise the dedup cache is checked-and-reserved; a
duplicate is dropped. Otherwise the rate limiter is consulted; over cap the
request is dropped. Otherwise a background delivery task carrying the rendered
message is scheduled. Only in-memory bookkeeping happens on the caller's path;
sleeps and transport sends live in the scheduled task's delivery trace. -/
def submit (st : DispatchState) (recipient templateName : String) (ps : Params)
    (eventKind : String) (now : Nat) : SubmitResult :=
  match render templateName ps with
  | Except.error e => ⟨SubmitOutcome.templateErr e, st, [], none⟩
  | Except.ok msg =>
    let key := eventKeyOf recipient eventKind
    let dedupRes := checkAndReserve st.dedup key now
    if dedupRes.1 then
      ⟨SubmitOutcome.dropped DropReason.Deduplicated, ⟨dedupRes.2, st.rate⟩,
        [Eff.dedupCheck], none⟩
    else
      let w := rateWindowFor st.rate recipient now
      let rateRes := tryConsume w now
      if rateRes.1 then
        ⟨SubmitOutcome.enqueued,
          ⟨dedupRes.2, setRateWindow st.rate recipient rateRes.2⟩,
          [Eff.dedupCheck, Eff.rateConsume], some ⟨recipient, msg.1, msg.2⟩⟩
      else
        ⟨SubmitOutcome.dropped DropReason.RateLimited, ⟨dedupRes.2, st.rate⟩,
          [Eff.dedupCheck, Eff.rateConsume], none⟩

/-! ## React client: RegisterModal (from `src/unnamed/part_003`) -/

/-- The input state of `RegisterModal` that `handleRegister` reads. -/
structure RegisterForm where
  username : String
  email : String
  password : String
  submitting : Bool
deriving DecidableEq, Repr

/-- A character admitted by the regex class `[^\s@]`: neither whitespace nor
`@`. -/
def emailChar (c : Char) : Bool :=
  !(c.isWhitespace || c == '@')

/-- All remainders after consuming one or more `[^\s@]` characters from the
front of the input — the backtracking semantics of the regex piece
`[^\s@]+`. -/
def consumeSome : List Char → List (List Char)
  | [] => []
  | c :: rest => if emailChar c then rest :: consumeSome rest else []

/-- The test of `/^[^\s@]+@[^\s@]+\.[^\s@]+$/` from `RegisterModal` (and
`LoginModal`), transcribed with the regex's backtracking semantics: some split
consumes `[^\s@]+`, then a literal `@`, then `[^\s@]+`, then a literal `.`,
then `[^\s@]+` reaching the end of the string. -/
def emailRegexTest (s : String) : Bool :=
  (consumeSome s.toList).any fun r1 =>
    match r1 with
    | '@' :: r2 =>
      (consumeSome r2).any fun r3 =>
        match r3 with
        | '.' :: r4 => (consumeSome r4).any List.isEmpty
        | _ => false
    | _ => false

/-- `isNameValid` of `RegisterModal`: trimmed username of length at least 3. -/
def isNameValid (username : String) : Bool :=
  decide (3 ≤ username.trim.length)

/-- `isEmailValid` of `RegisterModal`: the email regex test. -/
def isEmailValid (email : String) : Bool :=
  emailRegexTest email

/-- `isPasswordValid` of `RegisterModal`: password of length at least 6. -/
def isPasswordValid (password : String) : Bool :=
  decide (6 ≤ password.length)

/-- `canSubmit` of `RegisterModal`: all three validators pass and no
submission is in flight. -/
def canSubmit (f : RegisterForm) : Bool :=
  isNameValid f.username && isEmailValid f.email && isPasswordValid f.password
    && !f.submitting

/-- An HTTP POST request issued by the client. -/
structure HttpPost where
  url : String
  username : String
  email : String
  password : String
deriving DecidableEq, Repr

/-- `handleRegister` of `RegisterModal`, reduced to the request it issues:
after `preventDefault` and clearing the error it returns without sending
anything when `canSubmit` is false, and otherwise posts the form to
`/auth/register`. -/
def handleRegister (f : RegisterForm) : Option HttpPost :=
  if canSubmit f then some ⟨"/auth/register", f.username, f.email, f.password⟩
  else none

/-! ## React client: HistoryModal (from
`src/react-app/src/components/HistoryModal.jsx`) -/

/-- JS `String.prototype.startsWith`: the first string is a prefix of the
second. -/
def strStarts (pre s : String) : Bool :=
  pre.toList.isPrefixOf s.toList

/-- The JS expression `resultUrl || resultPath` followed by the falsiness
check: `none` and the empty string are falsy, and a falsy overall value is
collapsed to `""` (which line 54 of `HistoryModal.jsx` then returns). -/
def firstTruthy (resultUrl resultPath : Option String) : String :=
  match resultUrl with
  | some u =>
    if u = "" then
      match resultPath with
      | some p => p
      | none => ""
    else u
  | none =>
    match resultPath with
    | some p => p
    | none => ""

/-- `getImageUrl(resultUrl, resultPath)` of `HistoryModal`, with the module's
`API_URL` (environment variable or `http://localhost:5000` default) passed as
`apiUrl`. Prefers `resultUrl` over `resultPath`; returns `""` when both are
falsy; returns a full URL unchanged; prepends `apiUrl` to a `/results/` or
other absolute path; otherwise joins `apiUrl`, `/`, and the value. -/
def getImageUrl (apiUrl : String) (resultUrl resultPath : Option String) : String :=
  let url := firstTruthy resultUrl resultPath
  if url = "" then ""
  else if strStarts "http://" url || strStarts "https://" url then url
  else if strStarts "/results/" url then apiUrl ++ url
  else if strStarts "/" url then apiUrl ++ url
  else apiUrl ++ "/" ++ url

/-- One detection-history entry as `HistoryModal` reads it. -/
structure HistoryEntry where
  download_id : String
  filename : String
deriving DecidableEq, Repr

/-- `handleDeleteItem(downloadId)` of `HistoryModal`, reduced to its effect on
the `history` state: when the DELETE request succeeds the list is replaced by
`history.filter(h => h.download_id !== downloadId)`; when it fails (the catch
branch only records an error message) the list is left unchanged. -/
def handleDeleteItem (requestSucceeded : Bool) (downloadId : String)
    (history : List HistoryEntry) : List HistoryEntry :=
  if requestSucceeded then history.filter (fun h => ¬ h.download_id = downloadId)
  else history

/-! ## Retry Controller theorems -/

theorem deliverAux_attempts_le (transport : Nat → SendOutcome) :
    ∀ fuel attempt, (deliverAux transport attempt fuel).attempts ≤ fuel := by
  intro fuel
  induction fuel with
  | zero => intro attempt; simp [deliverAux]
  | succ n ih =>
    intro attempt
    simp only [deliverAux]
    cases transport attempt with
    | success => simp
    | authFailure => simp
    | transientError =>
      by_cases h : n = 0
      · simp [h]
      · simp only [h, if_false]
        have := ih (attempt + 1)
        omega

/-- C1: the Retry Controller performs up to 3 attempts total; the backoff
schedule is linear by attempt (2s, 4s, 6s); a permanently failing transient
error triggers exactly 3 attempts, with the delays 2s, 4s, 6s slept between
work, and then reports `TerminalFailure`. -/
theorem retry_bound_linear_backoff :
    (∀ transport, (deliver transport).attempts ≤ 3) ∧
    (∀ attempt, backoffDelay attempt = 2 * attempt) ∧
    deliver (fun _ => SendOutcome.transientError) =
      ⟨3, [2, 4, 6], [false, false, false], Outcome.TerminalFailure,
        [Eff.transportSend, Eff.sleep 2, Eff.transportSend, Eff.sleep 4,
         Eff.transportSend, Eff.sleep 6]⟩ := by
  refine ⟨fun transport => ?_, fun attempt => rfl, by decide⟩
  exact deliverAux_attempts_le transport maxRetries 1

/-- C4: an authentication/credential failure on the first attempt yields
exactly 1 attempt, the connection released unhealthy, no backoff sleep, and an
immediate `TerminalFailure` — no retry. -/
theorem auth_failure_single_attempt (transport : Nat → SendOutcome)
    (h : transport 1 = SendOutcome.authFailure) :
    deliver transport =
      ⟨1, [], [false], Outcome.TerminalFailure, [Eff.transportSend]⟩ := by
  simp [deliver, maxRetries, deliverAux, h]

theorem auth_failure_single_attempt_witness :
    (fun _ : Nat => SendOutcome.authFailure) 1 = SendOutcome.authFailure ∧
    deliver (fun _ : Nat => SendOutcome.authFailure) =
      ⟨1, [], [false], Outcome.TerminalFailure, [Eff.transportSend]⟩ :=
  ⟨rfl, auth_failure_single_attempt (fun _ => SendOutcome.authFailure) rfl⟩

/-! ## Deduplication Cache theorems -/

/-- C2: `checkAndReserve` inserts an entry stamped `now` and reports "not a
duplicate" when no entry exists; it reports "duplicate" and leaves the state
untouched while a live entry exists. Consequently, of two submissions for the
same event key within the 1-minute window only the first schedules a delivery
task (the second is dropped as `Deduplicated`), and a third submission after
the window elapses schedules a second independent delivery task. -/
theorem dedup_check_and_reserve_idempotence :
    (∀ st key now, findEntry st key = none →
        checkAndReserve st key now = (false, (key, now) :: st)) ∧
    (∀ st key now t, findEntry st key = some t → now < t + dedupWindow →
        checkAndReserve st key now = (true, st)) ∧
    (∀ recipient eventKind t0 t1 t2,
      t1 < t0 + dedupWindow → t0 + dedupWindow ≤ t2 →
      (submit ⟨[], []⟩ recipient "no_objects_detected"
          [("detection_type", "static")] eventKind t0).task.isSome = true ∧
      (submit (submit ⟨[], []⟩ recipient "no_objects_detected"
          [("detection_type", "static")] eventKind t0).state recipient
          "no_objects_detected" [("detection_type", "static")] eventKind
          t1).outcome = SubmitOutcome.dropped DropReason.Deduplicated ∧
      (submit (submit ⟨[], []⟩ recipient "no_objects_detected"
          [("detection_type", "static")] eventKind t0).state recipient
          "no_objects_detected" [("detection_type", "static")] eventKind
          t1).task = none ∧
      (submit (submit (submit ⟨[], []⟩ recipient "no_objects_detected"
          [("detection_type", "static")] eventKind t0).state recipient
          "no_objects_detected" [("detection_type", "static")] eventKind
          t1).state recipient "no_objects_detected"
          [("detection_type", "static")] eventKind t2).task.isSome = true) := by
  refine ⟨?_, ?_, ?_⟩
  · intro st key now hnone
    simp [checkAndReserve, hnone]
  · intro st key now t hsome hlive
    simp [checkAndReserve, hsome, hlive]
  · intro recipient eventKind t0 t1 t2 h1 h2
    have hrender : render "no_objects_detected" [("detection_type", "static")] =
        Except.ok ("Vision Guard Alert: No Objects Detected",
          "No objects were detected in your static detection.") := rfl
    have hne0 : t0 + rateWindowLen ≤ t0 ↔ False := by
      simp [rateWindowLen]
    have hr0 : submit ⟨[], []⟩ recipient "no_objects_detected"
        [("detection_type", "static")] eventKind t0 =
        ⟨SubmitOutcome.enqueued,
          ⟨[(eventKeyOf recipient eventKind, t0)],
            [(recipient, ⟨t0, 1⟩)]⟩,
          [Eff.dedupCheck, Eff.rateConsume],
          some ⟨recipient, "Vision Guard Alert: No Objects Detected",
            "No objects were detected in your static detection."⟩⟩ := by
      simp [submit, hrender, checkAndReserve, findEntry, rateWindowFor,
        setRateWindow, tryConsume, windowElapsed, hne0, rateCap]
    have hdup : checkAndReserve [(eventKeyOf recipient eventKind, t0)]
        (eventKeyOf recipient eventKind) t1 =
        (true, [(eventKeyOf recipient eventKind, t0)]) := by
      simp [checkAndReserve, findEntry, List.find?, h1]
    have hr1 : submit (⟨[(eventKeyOf recipient eventKind, t0)],
        [(recipient, ⟨t0, 1⟩)]⟩ : DispatchState) recipient
        "no_objects_detected" [("detection_type", "static")] eventKind t1 =
        ⟨SubmitOutcome.dropped DropReason.Deduplicated,
          ⟨[(eventKeyOf recipient eventKind, t0)], [(recipient, ⟨t0, 1⟩)]⟩,
          [Eff.dedupCheck], none⟩ := by
      simp [submit, hrender, hdup]
    have hfresh : checkAndReserve [(eventKeyOf recipient eventKind, t0)]
        (eventKeyOf recipient eventKind) t2 =
        (false, [(eventKeyOf recipient eventKind, t2)]) := by
      have hnl : ¬ t2 < t0 + dedupWindow := by omega
      simp [checkAndReserve, findEntry, List.find?, hnl]
    rw [hr0]
    refine ⟨rfl, ?_, ?_, ?_⟩
    · rw [hr1]
    · rw [hr1]
    · rw [hr1]
      by_cases he : t0 + rateWindowLen ≤ t2
      · simp [submit, hrender, hfresh, rateWindowFor, setRateWindow,
          tryConsume, windowElapsed, he, List.find?]
      · simp [submit, hrender, hfresh, rateWindowFor, setRateWindow,
          tryConsume, windowElapsed, he, rateCap, List.find?]

theorem dedup_check_and_reserve_idempotence_witness :
    checkAndReserve [] "alice@x.com:static" 0 = (false, [("alice@x.com:static", 0)]) ∧
    checkAndReserve [("alice@x.com:static", 0)] "alice@x.com:static" 30 =
      (true, [("alice@x.com:static", 0)]) ∧
    (submit (submit ⟨[], []⟩ "alice@x.com" "no_objects_detected"
        [("detection_type", "static")] "static" 0).state "alice@x.com"
        "no_objects_detected" [("detection_type", "static")] "static"
        30).outcome = SubmitOutcome.dropped DropReason.Deduplicated := by
  refine ⟨?_, ?_, ?_⟩
  · exact dedup_check_and_reserve_idempotence.1 [] "alice@x.com:static" 0 rfl
  · exact dedup_check_and_reserve_idempotence.2.1 [("alice@x.com:static", 0)]
      "alice@x.com:static" 30 0 rfl (by decide)
  · exact (dedup_check_and_reserve_idempotence.2.2 "alice@x.com" "static" 0 30 60
      (by decide) (by decide)).2.1

/-! ## Rate Limiter theorems -/

/-- C3: the per-recipient `sentCount` never exceeds the cap of 3 — preserved
by each `tryConsume` and by any sequence of calls; a consume within a live
window increments the counter while below the cap and fails with no state
change once the counter equals the cap; the window resets (count to 0 before
the consume, start to `now`) exactly when the window has elapsed, and the
window start is untouched otherwise. -/
theorem rate_limiter_cap_invariant :
    (∀ w now, w.sentCount ≤ rateCap → ((tryConsume w now).2).sentCount ≤ rateCap) ∧
    (∀ (ts : List Nat) (w : RateLimitWindow), w.sentCount ≤ rateCap →
        (ts.foldl (fun s t => (tryConsume s t).2) w).sentCount ≤ rateCap) ∧
    (∀ w now, windowElapsed w now = false → w.sentCount < rateCap →
        tryConsume w now = (true, ⟨w.windowStart, w.sentCount + 1⟩)) ∧
    (∀ w now, windowElapsed w now = false → w.sentCount = rateCap →
        tryConsume w now = (false, w)) ∧
    (∀ w now, windowElapsed w now = true → tryConsume w now = (true, ⟨now, 1⟩)) ∧
    (∀ w now, windowElapsed w now = false →
        ((tryConsume w now).2).windowStart = w.windowStart) := by
  have hstep : ∀ (w : RateLimitWindow) (now : Nat), w.sentCount ≤ rateCap →
      ((tryConsume w now).2).sentCount ≤ rateCap := by
    intro w now hw
    unfold tryConsume
    by_cases he : windowElapsed w now
    · simp [he, rateCap]
    · by_cases hc : w.sentCount < rateCap
      · simp [he, hc]
        omega
      · simp [he, hc]
        exact hw
  refine ⟨hstep, ?_, ?_, ?_, ?_, ?_⟩
  · intro ts
    induction ts with
    | nil => intro w hw; simpa using hw
    | cons t rest ih =>
      intro w hw
      simp only [List.foldl_cons]
      exact ih _ (hstep w t hw)
  · intro w now he hc
    simp [tryConsume, he, hc]
  · intro w now he hc
    simp [tryConsume, he, hc, rateCap]
  · intro w now he
    simp [tryConsume, he]
  · intro w now he
    unfold tryConsume
    by_cases hc : w.sentCount < rateCap <;> simp [he, hc]

theorem rate_limiter_cap_invariant_witness :
    ((tryConsume ⟨0, 3⟩ 100).2).sentCount ≤ rateCap ∧
    (([10, 20, 30, 40, 50] : List Nat).foldl
      (fun s t => (tryConsume s t).2) ⟨0, 0⟩).sentCount ≤ rateCap ∧
    tryConsume ⟨0, 2⟩ 100 = (true, ⟨0, 3⟩) ∧
    tryConsume ⟨0, 3⟩ 100 = (false, ⟨0, 3⟩) ∧
    tryConsume ⟨0, 3⟩ 300 = (true, ⟨300, 1⟩) ∧
    ((tryConsume ⟨0, 1⟩ 100).2).windowStart = 0 := by
  refine ⟨?_, ?_, ?_, ?_, ?_, ?_⟩
  · exact rate_limiter_cap_invariant.1 ⟨0, 3⟩ 100 (by decide)
  · exact rate_limiter_cap_invariant.2.1 [10, 20, 30, 40, 50] ⟨0, 0⟩ (by decide)
  · exact rate_limiter_cap_invariant.2.2.1 ⟨0, 2⟩ 100 (by decide) (by decide)
  · exact rate_limiter_cap_invariant.2.2.2.1 ⟨0, 3⟩ 100 (by decide) (by decide)
  · exact rate_limiter_cap_invariant.2.2.2.2.1 ⟨0, 3⟩ 300 (by decide)
  · exact rate_limiter_cap_invariant.2.2.2.2.2 ⟨0, 1⟩ 100 (by decide)

/-! ## Connection Pool theorems -/

/-- C5: the Connection Pool never hands out a connection past its 5-minute
idle TTL or marked unhealthy — every connection `acquire` returns is usable at
`now`; every stale or unhealthy pool member is closed by the acquire sweep;
when every pooled connection has expired, `acquire` opens a fresh connection;
the invariant is preserved by `acquire` (only usable connections stay idle)
and by `release` (a healthy release re-stamps the last-use time, an unhealthy
release closes the connection instead of pooling it). -/
theorem pool_never_hands_out_stale :
    (∀ pool newHandle now, usable (acquire pool newHandle now).conn now = true) ∧
    (∀ pool newHandle now c, c ∈ pool → usable c now = false →
        c ∈ (acquire pool newHandle now).closed) ∧
    (∀ pool newHandle now, (∀ c ∈ pool, usable c now = false) →
        (acquire pool newHandle now).openedFresh = true ∧
        (acquire pool newHandle now).conn = freshConnection newHandle now) ∧
    (∀ pool newHandle now c, c ∈ (acquire pool newHandle now).idle →
        usable c now = true) ∧
    (∀ pool c now, release pool c true now =
        (⟨c.handle, c.createdAt, now, true⟩ :: pool, [])) ∧
    (∀ pool c now, release pool c false now = (pool, [c])) := by
  refine ⟨?_, ?_, ?_, ?_, ?_, ?_⟩
  · intro pool newHandle now
    unfold acquire
    cases hl : pool.filter (fun c => usable c now) with
    | nil =>
      simp [freshConnection, usable, poolTTL]
    | cons c rest =>
      have hc : c ∈ pool.filter (fun c => usable c now) := by
        rw [hl]; exact List.mem_cons_self c rest
      simpa using (List.mem_filter.mp hc).2
  · intro pool newHandle now c hmem hbad
    have hc : c ∈ pool.filter (fun c => !(usable c now)) :=
      List.mem_filter.mpr ⟨hmem, by simp [hbad]⟩
    unfold acquire
    cases hl : pool.filter (fun c => usable c now) with
    | nil => simpa using hc
    | cons d rest => simpa using hc
  · intro pool newHandle now hall
    have hl : pool.filter (fun c => usable c now) = [] := by
      apply List.filter_eq_nil_iff.mpr
      intro c hc
      simp [hall c hc]
    unfold acquire
    rw [hl]
    exact ⟨rfl, rfl⟩
  · intro pool newHandle now c hmem
    unfold acquire at hmem
    cases hl : pool.filter (fun c => usable c now) with
    | nil =>
      rw [hl] at hmem
      simp at hmem
    | cons d rest =>
      rw [hl] at hmem
      simp only at hmem
      have hc : c ∈ pool.filter (fun c => usable c now) := by
        rw [hl]; exact List.mem_cons_of_mem d hmem
      simpa using (List.mem_filter.mp hc).2
  · intro pool c now
    simp [release]
  · intro pool c now
    simp [release]

theorem pool_never_hands_out_stale_witness :
    usable (acquire [⟨7, 0, 0, true⟩] 9 301).conn 301 = true ∧
    (⟨7, 0, 0, true⟩ : PooledConnection) ∈ (acquire [⟨7, 0, 0, true⟩] 9 301).closed ∧
    (acquire [⟨7, 0, 0, true⟩] 9 301).openedFresh = true ∧
    (acquire [⟨7, 0, 0, true⟩] 9 301).conn = freshConnection 9 301 := by
  have hstale : ∀ c ∈ ([⟨7, 0, 0, true⟩] : List PooledConnection),
      usable c 301 = false := by
    intro c hc
    simp only [List.mem_singleton] at hc
    subst hc
    decide
  refine ⟨?_, ?_, ?_, ?_⟩
  · exact pool_never_hands_out_stale.1 [⟨7, 0, 0, true⟩] 9 301
  · exact pool_never_hands_out_stale.2.1 [⟨7, 0, 0, true⟩] 9 301 ⟨7, 0, 0, true⟩
      (List.mem_singleton.mpr rfl) (by decide)
  · exact (pool_never_hands_out_stale.2.2.1 [⟨7, 0, 0, true⟩] 9 301 hstale).1
  · exact (pool_never_hands_out_stale.2.2.1 [⟨7, 0, 0, true⟩] 9 301 hstale).2

/-! ## Template Renderer theorems -/

theorem itemKeys_cons_lit (s : String) (rest : List TemplateItem) :
    itemKeys (TemplateItem.lit s :: rest) = itemKeys rest := rfl

theorem itemKeys_cons_param (k : String) (rest : List TemplateItem) :
    itemKeys (TemplateItem.param k :: rest) = k :: itemKeys rest := rfl

theorem renderItems_error_missing (items : List TemplateItem) (ps : Params) :
    ∀ e, renderItems items ps = Except.error e →
      ∃ k, e = TemplateError.MissingParameter k ∧ lookupParam ps k = none := by
  induction items with
  | nil => intro e h; simp [renderItems] at h
  | cons i rest ih =>
    intro e h
    cases i with
    | lit s =>
      simp only [renderItems] at h
      cases hr : renderItems rest ps with
      | error e2 =>
        rw [hr] at h
        simp only [Except.map, Except.error.injEq] at h
        subst h
        exact ih e2 hr
      | ok s2 =>
        rw [hr] at h
        simp [Except.map] at h
    | param k =>
      simp only [renderItems] at h
      cases hk : lookupParam ps k with
      | none =>
        rw [hk] at h
        simp only [Except.error.injEq] at h
        exact ⟨k, h.symm, hk⟩
      | some v =>
        rw [hk] at h
        cases hr : renderItems rest ps with
        | error e2 =>
          rw [hr] at h
          simp only [Except.map, Except.error.injEq] at h
          subst h
          exact ih e2 hr
        | ok s2 =>
          rw [hr] at h
          simp [Except.map] at h

theorem renderItems_missing_errors (items : List TemplateItem) (ps : Params) :
    ∀ k, k ∈ itemKeys items → lookupParam ps k = none →
      ∃ q, lookupParam ps q = none ∧
        renderItems items ps = Except.error (TemplateError.MissingParameter q) := by
  induction items with
  | nil => intro k hk; simp [itemKeys] at hk
  | cons i rest ih =>
    intro k hk hnone
    cases i with
    | lit s =>
      rw [itemKeys_cons_lit] at hk
      obtain ⟨q, hq, herr⟩ := ih k hk hnone
      exact ⟨q, hq, by simp [renderItems, herr, Except.map]⟩
    | param p =>
      cases hp : lookupParam ps p with
      | none => exact ⟨p, hp, by simp [renderItems, hp]⟩
      | some v =>
        have hk2 : k ∈ itemKeys rest := by
          rw [itemKeys_cons_param] at hk
          rcases List.mem_cons.mp hk with heq | hmem
          · subst heq; rw [hp] at hnone; cases hnone
          · exact hmem
        obtain ⟨q, hq, herr⟩ := ih k hk2 hnone
        exact ⟨q, hq, by simp [renderItems, hp, herr, Except.map]⟩

/-- C6: `render` fails with `UnknownTemplate` whenever the name is not in the
static registry, and with `MissingParameter` whenever some placeholder of the
template has no entry in the parameters; every such `TemplateError` is
surfaced synchronously by `submit` — the erroneous submission performs no
bookkeeping, changes no state, and schedules no background task. -/
theorem template_errors_synchronous :
    (∀ name ps, templateRegistry.find? (fun t => t.1 = name) = none →
        render name ps = Except.error (TemplateError.UnknownTemplate name)) ∧
    (∀ name tpl ps,
        (templateRegistry.find? (fun t => t.1 = name)).map (fun t => t.2) = some tpl →
        (∃ k ∈ placeholdersOf tpl, lookupParam ps k = none) →
        ∃ q, lookupParam ps q = none ∧
          render name ps = Except.error (TemplateError.MissingParameter q)) ∧
    (∀ st recipient name ps eventKind now e,
        render name ps = Except.error e →
        submit st recipient name ps eventKind now =
          ⟨SubmitOutcome.templateErr e, st, [], none⟩) := by
  refine ⟨?_, ?_, ?_⟩
  · intro name ps hnone
    simp [render, hnone]
  · intro name tpl ps hfind hmiss
    obtain ⟨k, hk, hnone⟩ := hmiss
    rw [placeholdersOf, itemKeys, List.filterMap_append] at hk
    rcases List.mem_append.mp hk with hks | hkb
    · obtain ⟨q, hq, herr⟩ :=
        renderItems_missing_errors tpl.subject ps k (by simpa [itemKeys] using hks) hnone
      exact ⟨q, hq, by simp [render, hfind, herr]⟩
    · cases hs : renderItems tpl.subject ps with
      | error e =>
        obtain ⟨q, hq, hqn⟩ := renderItems_error_missing tpl.subject ps e hs
        subst hq
        exact ⟨q, hqn, by simp [render, hfind, hs]⟩
      | ok s =>
        obtain ⟨q, hq, herr⟩ :=
          renderItems_missing_errors tpl.body ps k (by simpa [itemKeys] using hkb) hnone
        exact ⟨q, hq, by simp [render, hfind, hs, herr]⟩
  · intro st recipient name ps eventKind now e herr
    simp [submit, herr]

theorem template_errors_synchronous_witness :
    render "bogus_template" [] =
      Except.error (TemplateError.UnknownTemplate "bogus_template") ∧
    (∃ q, lookupParam [] q = none ∧
      render "no_objects_detected" [] =
        Except.error (TemplateError.MissingParameter q)) ∧
    submit ⟨[], []⟩ "alice@x.com" "bogus_template" [] "static" 0 =
      ⟨SubmitOutcome.templateErr (TemplateError.UnknownTemplate "bogus_template"),
        ⟨[], []⟩, [], none⟩ := by
  refine ⟨?_, ?_, ?_⟩
  · exact template_errors_synchronous.1 "bogus_template" [] (by decide)
  · exact template_errors_synchronous.2.1 "no_objects_detected"
      ⟨[TemplateItem.lit "Vision Guard Alert: No Objects Detected"],
       [TemplateItem.lit "No objects were detected in your ",
        TemplateItem.param "detection_type",
        TemplateItem.lit " detection."]⟩ [] (by decide)
      ⟨"detection_type", by decide, rfl⟩
  · exact template_errors_synchronous.2.2 ⟨[], []⟩ "alice@x.com"
      "bogus_template" [] "static" 0 (TemplateError.UnknownTemplate "bogus_template")
      (template_errors_synchronous.1 "bogus_template" [] (by decide))

/-! ## Dispatcher façade theorems -/

/-- C7: every effect `submit` performs on the caller's path is in-memory
dedup/rate-limit bookkeeping — in particular no backoff sleep and no transport
send ever occurs before `submit` returns, for every input and every state
(hence regardless of anything the transport later does); sleeps and sends live
only in the scheduled background task's delivery trace. -/
theorem submit_nonblocking_caller_path :
    ∀ st recipient templateName ps eventKind now,
      ((submit st recipient templateName ps eventKind now).callerSteps.all
        inMemoryBookkeeping) = true := by
  intro st recipient templateName ps eventKind now
  unfold submit
  cases render templateName ps with
  | error e => rfl
  | ok msg =>
    simp only []
    by_cases h1 : (checkAndReserve st.dedup (eventKeyOf recipient eventKind) now).1
    · simp [h1, inMemoryBookkeeping]
    · by_cases h2 : (tryConsume (rateWindowFor st.rate recipient now) now).1
      · simp [h1, h2, inMemoryBookkeeping]
      · simp [h1, h2, inMemoryBookkeeping]

/-! ## RegisterModal theorems -/

/-- C8: `handleRegister` issues the registration POST to `/auth/register`
exactly when the trimmed username has length at least 3, the email passes the
regex test, the password has length at least 6, and no submission is in
flight; for every input state violating any of these it sends nothing. -/
theorem register_validation_gates_post :
    ∀ f : RegisterForm,
      handleRegister f =
        if 3 ≤ f.username.trim.length ∧ emailRegexTest f.email = true ∧
            6 ≤ f.password.length ∧ f.submitting = false then
          some ⟨"/auth/register", f.username, f.email, f.password⟩
        else none := by
  intro f
  by_cases h : 3 ≤ f.username.trim.length ∧ emailRegexTest f.email = true ∧
      6 ≤ f.password.length ∧ f.submitting = false
  · rw [if_pos h]
    obtain ⟨h1, h2, h3, h4⟩ := h
    unfold handleRegister
    rw [if_pos]
    simp [canSubmit, isNameValid, isEmailValid, isPasswordValid, h1, h2, h3, h4]
  · rw [if_neg h]
    unfold handleRegister
    rw [if_neg]
    intro hc
    apply h
    simp only [canSubmit, isNameValid, isEmailValid, isPasswordValid,
      Bool.and_eq_true, decide_eq_true_eq, Bool.not_eq_true'] at hc
    exact ⟨hc.1.1.1, hc.1.1.2, hc.1.2, hc.2⟩

/-! ## HistoryModal theorems -/

theorem strStarts_results_slash (u : String) (h : strStarts "/results/" u = true) :
    strStarts "/" u = true := by
  unfold strStarts at h ⊢
  rw [List.isPrefixOf_iff_prefix] at h ⊢
  obtain ⟨t, ht⟩ := h
  refine ⟨"results/".toList ++ t, ?_⟩
  calc "/".toList ++ ("results/".toList ++ t)
      = ("/".toList ++ "results/".toList) ++ t := (List.append_assoc _ _ _).symm
    _ = "/results/".toList ++ t := by rfl
    _ = u.toList := ht

/-- C9: `getImageUrl` is total and returns the empty string when both
arguments are falsy; computes exactly the four-way branch of the claim — the
preferred value (`resultUrl` if truthy, else `resultPath`) unchanged when it
starts with `http://` or `https://`, `apiUrl` concatenated directly with the
value when it starts with `/` (the `/results/` branch of the source collapses
into this one), and `apiUrl ++ "/" ++ value` otherwise; in particular a full
URL always round-trips unchanged. -/
theorem get_image_url_spec :
    (∀ apiUrl, getImageUrl apiUrl none none = "" ∧
        getImageUrl apiUrl (some "") none = "" ∧
        getImageUrl apiUrl none (some "") = "" ∧
        getImageUrl apiUrl (some "") (some "") = "") ∧
    (∀ apiUrl resultUrl resultPath,
        getImageUrl apiUrl resultUrl resultPath =
          (let u := firstTruthy resultUrl resultPath
           if u = "" then ""
           else if strStarts "http://" u || strStarts "https://" u then u
           else if strStarts "/" u then apiUrl ++ u
           else apiUrl ++ "/" ++ u)) ∧
    (∀ apiUrl rest resultPath,
        getImageUrl apiUrl (some ("http://" ++ rest)) resultPath =
          "http://" ++ rest) ∧
    (∀ apiUrl rest resultPath,
        getImageUrl apiUrl (some ("https://" ++ rest)) resultPath =
          "https://" ++ rest) := by
  have hbranch : ∀ apiUrl u : String,
      (if u = "" then ""
       else if strStarts "http://" u || strStarts "https://" u then u
       else if strStarts "/results/" u then apiUrl ++ u
       else if strStarts "/" u then apiUrl ++ u
       else apiUrl ++ "/" ++ u) =
      (if u = "" then ""
       else if strStarts "http://" u || strStarts "https://" u then u
       else if strStarts "/" u then apiUrl ++ u
       else apiUrl ++ "/" ++ u) := by
    intro apiUrl u
    by_cases h0 : u = ""
    · simp [h0]
    · simp only [h0, if_false]
      by_cases h1 : (strStarts "http://" u || strStarts "https://" u) = true
      · simp [h1]
      · simp only [h1, if_false, Bool.false_eq_true]
        by_cases h2 : strStarts "/results/" u = true
        · have h3 := strStarts_results_slash u h2
          simp [h2, h3]
        · simp [h2]
  have hfull : ∀ (pre apiUrl rest : String) (resultPath : Option String),
      pre.data.length ≠ 0 →
      (strStarts pre (pre ++ rest) = true →
        (strStarts "http://" (pre ++ rest) || strStarts "https://" (pre ++ rest)) = true) →
      getImageUrl apiUrl (some (pre ++ rest)) resultPath = pre ++ rest := by
    intro pre apiUrl rest resultPath hplen himp
    have hne : ¬ (pre ++ rest) = "" := by
      intro h
      have hlen : (pre ++ rest).data.length = 0 := by rw [h]; rfl
      rw [String.data_append, List.length_append] at hlen
      omega
    have hpre : strStarts pre (pre ++ rest) = true := by
      unfold strStarts
      rw [List.isPrefixOf_iff_prefix]
      have hdata : (pre ++ rest).toList = pre.toList ++ rest.toList :=
        String.data_append _ _
      rw [hdata]
      exact List.prefix_append _ _
    simp [getImageUrl, firstTruthy, hne, himp hpre]
  refine ⟨?_, ?_, ?_, ?_⟩
  · intro apiUrl
    exact ⟨rfl, rfl, rfl, rfl⟩
  · intro apiUrl resultUrl resultPath
    simp only [getImageUrl]
    exact hbranch apiUrl (firstTruthy resultUrl resultPath)
  · intro apiUrl rest resultPath
    exact hfull "http://" apiUrl rest resultPath (by decide) (fun h => by simp [h])
  · intro apiUrl rest resultPath
    exact hfull "https://" apiUrl rest resultPath (by decide) (fun h => by simp [h])

/-- C10: on a successful DELETE, `handleDeleteItem` replaces the history with
its filtration — exactly the entries whose `download_id` equals the target are
removed, every other entry is kept unchanged and in its original order (the
result is a sublist of the old list, and membership is membership in the old
list plus a differing `download_id`); on a failed DELETE the history is left
entirely unchanged. -/
theorem delete_item_frame :
    (∀ downloadId history, handleDeleteItem true downloadId history =
        history.filter (fun h => ¬ h.download_id = downloadId)) ∧
    (∀ downloadId history,
        (handleDeleteItem true downloadId history).Sublist history) ∧
    (∀ downloadId history e, e ∈ handleDeleteItem true downloadId history ↔
        (e ∈ history ∧ ¬ e.download_id = downloadId)) ∧
    (∀ downloadId history, handleDeleteItem false downloadId history = history) := by
  refine ⟨?_, ?_, ?_, ?_⟩
  · intro downloadId history
    rfl
  · intro downloadId history
    simp only [handleDeleteItem, if_true]
    exact List.filter_sublist history
  · intro downloadId history e
    simp [handleDeleteItem, List.mem_filter]
  · intro downloadId history
    rfl

end VisionGuard
